import Mathlib

/-!
Shallow embedding of the Dodo volume bot's confirmation and scheduling core.

The embedding follows two source files:

* `src/transaction_confirmation_manager.js` — the `TransactionConfirmationManager`
  class: pending-confirmation registry, racing websocket/poll resolution,
  rate-limit gate, block-height expiry and the overall timeout backstop.
* `src/simple_volume_bot.js` — the `SimpleVolumeBot` class: group trade cycles,
  aggregate statistics, and the run/stop lifecycle.

JavaScript `Map`s are embedded as unique-key association lists, timestamps and
block heights as `Int` (millisecond clock values), and each asynchronous
callback as an explicit step function taking the environment's answer
(poll result, websocket notification, timer firing time) as an argument.
A field the source never assigns (JS `undefined`) is embedded as `none`.
-/

/-- `Map.set` on an association list: replaces any previous binding of `k`. -/
def mapSet {α : Type} (m : List (String × α)) (k : String) (v : α) :
    List (String × α) :=
  (k, v) :: m.filter (fun p => p.1 ≠ k)

/-- `Map.delete` on an association list. -/
def mapDelete {α : Type} (m : List (String × α)) (k : String) :
    List (String × α) :=
  m.filter (fun p => p.1 ≠ k)

/-- `Map.get` on an association list. -/
def mapLookup {α : Type} (m : List (String × α)) (k : String) : Option α :=
  match m with
  | [] => none
  | (k', v) :: rest => if k' = k then some v else mapLookup rest k

/-- Configuration of the confirmation manager
(`transaction_confirmation_manager.js` lines 9-19). -/
structure TCMConfig where
  maxRetries : Nat
  commitment : String
  subscribeTimeoutMs : Int
  statusCheckInterval : Int
  maxBlockHeightAge : Int
  maxParallelRequests : Nat
  cooldownMs : Int
deriving Repr, DecidableEq

/-- The constructor defaults: 40 retries, "confirmed" commitment, 45000 ms
subscribe timeout, 2000 ms status-check interval, 150 blocks max age. -/
def defaultTCMConfig : TCMConfig :=
  { maxRetries := 40
    commitment := "confirmed"
    subscribeTimeoutMs := 45000
    statusCheckInterval := 2000
    maxBlockHeightAge := 150
    maxParallelRequests := 2
    cooldownMs := 2000 }

/-- `this.rateLimitState` (lines 22-27). -/
structure RateLimitState where
  methodRemaining : Int
  rpsRemaining : Int
  nextReset : Int
  retryAfter : Int
deriving Repr, DecidableEq

/-- Constructor value of `rateLimitState`: `{methodRemaining: 10,
rpsRemaining: 100, nextReset: Date.now() + 1000, retryAfter: 0}`. -/
def initRateLimitState (now : Int) : RateLimitState :=
  { methodRemaining := 10, rpsRemaining := 100, nextReset := now + 1000,
    retryAfter := 0 }

/-- A `PendingConfirmation` record as built by `confirmTransaction`
(lines 42-50).  The source object literal sets `signature`, `startTime`,
`attempts`, `subscribed` and `statusChecked` only; `startBlockHeight` is read
by `isTransactionExpired` (line 184) but never assigned anywhere, i.e. it is
JS `undefined`, embedded as `none`. -/
structure Confirmation where
  signature : String
  startTime : Int
  startBlockHeight : Option Int
  attempts : Nat
  subscribed : Bool
  statusChecked : Bool
deriving Repr, DecidableEq

/-- The manager's mutable state: rate-limit state, the `subscriptions` map
(signature to subscription id), the `pendingConfirmations` map, and the
tracked `lastKnownBlockHeight`. -/
structure TCMState where
  config : TCMConfig
  rateLimitState : RateLimitState
  subscriptions : List (String × Nat)
  pendingConfirmations : List (String × Confirmation)
  lastKnownBlockHeight : Int
deriving Repr, DecidableEq

/-- A freshly constructed manager (clock 0, no pending work). -/
def tcmInit : TCMState :=
  { config := defaultTCMConfig
    rateLimitState := initRateLimitState 0
    subscriptions := []
    pendingConfirmations := []
    lastKnownBlockHeight := 0 }

/-- The terminal outcome delivered to the caller of `confirmTransaction`:
`resolve(success)` or `reject(error)` (lines 157-162). -/
inductive Outcome where
  | success (value : Bool)
  | failure (message : String)
deriving Repr, DecidableEq

/-- `confirmTransaction(signature)` (lines 40-63): registers the pending
record keyed by the signature and schedules the timeout timer.  The returned
`Int` is the delay of that timer, `this.config.subscribeTimeoutMs`. -/
def confirmTransaction (s : TCMState) (signature : String) (now : Int) :
    TCMState × Int :=
  let confirmation : Confirmation :=
    { signature := signature
      startTime := now
      startBlockHeight := none
      attempts := 0
      subscribed := false
      statusChecked := false }
  ({ s with pendingConfirmations :=
      mapSet s.pendingConfirmations signature confirmation },
   s.config.subscribeTimeoutMs)

/-- `completeConfirmation(signature, error, success)` (lines 145-163): a
no-op when the signature is no longer pending; otherwise removes the pending
record and any subscription, then rejects with the error or resolves with
the success flag. -/
def completeConfirmation (s : TCMState) (signature : String)
    (error : Option String) (success : Bool) : TCMState × Option Outcome :=
  match mapLookup s.pendingConfirmations signature with
  | none => (s, none)
  | some _ =>
    let s' : TCMState :=
      { s with
        pendingConfirmations := mapDelete s.pendingConfirmations signature
        subscriptions := mapDelete s.subscriptions signature }
    match error with
    | some e => (s', some (Outcome.failure e))
    | none => (s', some (Outcome.success success))

/-- `isTransactionExpired(signature)` (lines 180-186).  For a pending record
`startBlockHeight` is `undefined` (never assigned), so the JS subtraction
yields `NaN` and `NaN > maxBlockHeightAge` is `false`; the `none` branch
embeds that comparison result. -/
def isTransactionExpired (s : TCMState) (signature : String) : Bool :=
  match mapLookup s.pendingConfirmations signature with
  | none => true
  | some confirmation =>
    match confirmation.startBlockHeight with
    | none => false
    | some h => s.lastKnownBlockHeight - h > s.config.maxBlockHeightAge

/-- `handleWebsocketConfirmation(signature, result)` (lines 188-194). -/
def handleWebsocketConfirmation (s : TCMState) (signature : String)
    (resultErr : Option String) : TCMState × Option Outcome :=
  match resultErr with
  | some e => completeConfirmation s signature (some e) false
  | none => completeConfirmation s signature none true

/-- `handleConfirmationTimeout(signature)` (lines 196-201), fired at clock
`now`: resolves with the timeout error when the record is still pending and
the wall-clock budget has elapsed. -/
def handleConfirmationTimeout (s : TCMState) (signature : String)
    (now : Int) : TCMState × Option Outcome :=
  match mapLookup s.pendingConfirmations signature with
  | some confirmation =>
    if now - confirmation.startTime ≥ s.config.subscribeTimeoutMs then
      completeConfirmation s signature (some "Confirmation timeout") false
    else (s, none)
  | none => (s, none)

/-- `canMakeRequest()` (lines 139-143). -/
def canMakeRequest (rl : RateLimitState) (now : Int) : Bool :=
  rl.methodRemaining > 0 && rl.rpsRemaining > 0 && now > rl.nextReset

/-- The parsed rate-limit response headers consumed by
`updateRateLimitsFromHeaders` (lines 125-131). -/
structure RateLimitHeaders where
  methodRemaining : Option Int
  rpsRemaining : Option Int
  retryAfter : Option Int
deriving Repr, DecidableEq

/-- `updateRateLimitsFromHeaders(headers)` (lines 125-131): does nothing when
`headers` is absent (the call at line 90 passes no argument). -/
def updateRateLimitsFromHeaders (rl : RateLimitState)
    (headers : Option RateLimitHeaders) : RateLimitState :=
  match headers with
  | none => rl
  | some h =>
    { rl with
      methodRemaining := h.methodRemaining.getD 10
      rpsRemaining := h.rpsRemaining.getD 100
      retryAfter := (h.retryAfter.getD 0) * 1000 }

/-- `handleRateLimitError(error)` (lines 133-137): `retryAfter` becomes
`Math.max(parseInt(headers['retry-after'] || 2) * 1000, 2000)`. -/
def handleRateLimitError (rl : RateLimitState)
    (retryAfterHeader : Option Int) : RateLimitState :=
  { rl with retryAfter := max ((retryAfterHeader.getD 2) * 1000) 2000 }

/-- `status.value` of a `getSignatureStatus` response. -/
structure SignatureStatusValue where
  err : Option String
  confirmationStatus : Option String
deriving Repr, DecidableEq

/-- The environment's answer to one `getSignatureStatus` call: a response
(whose `value` may be null), a rejection whose message contains '429'
(carrying the parsed `retry-after` header), or any other rejection. -/
inductive PollResult where
  | ok (statusValue : Option SignatureStatusValue)
  | rateLimitError (retryAfterHeader : Option Int)
  | otherError (message : String)
deriving Repr, DecidableEq

/-- What one run of `checkTransactionStatus` does next: deliver a terminal
outcome, schedule another poll via `setTimeout(delayMs)`, or schedule
nothing at all. -/
inductive PollAction where
  | resolved (outcome : Outcome)
  | reschedule (delayMs : Int)
  | halt
deriving Repr, DecidableEq

/-- `status?.value?.err`. -/
def statusErr : Option SignatureStatusValue → Option String
  | some v => v.err
  | none => none

/-- `status?.value?.confirmationStatus === 'confirmed' || ... === 'finalized'`. -/
def statusConfirmed : Option SignatureStatusValue → Bool
  | some v =>
    v.confirmationStatus == some "confirmed" ||
    v.confirmationStatus == some "finalized"
  | none => false

/-- Repackage a `completeConfirmation` result as the poll's action. -/
def toPollAction : TCMState × Option Outcome → TCMState × PollAction
  | (s, some o) => (s, PollAction.resolved o)
  | (s, none) => (s, PollAction.halt)

/-- One run of `checkTransactionStatus(signature)` (lines 78-123) at clock
`now`, with `result` the environment's answer to the `getSignatureStatus`
call.  Mirrors the source exactly: missing record returns; a failed
rate-limit gate reschedules after `retryAfter`; otherwise the response is
examined (error, confirmed/finalized, expiry, reschedule after the status
interval) — note the successful path calls `updateRateLimitsFromHeaders`
with no argument (line 90); a '429' rejection updates `retryAfter` and
reschedules after it; any other rejection only logs, scheduling nothing. -/
def checkTransactionStatus (s : TCMState) (signature : String) (now : Int)
    (result : PollResult) : TCMState × PollAction :=
  match mapLookup s.pendingConfirmations signature with
  | none => (s, PollAction.halt)
  | some _ =>
    if canMakeRequest s.rateLimitState now then
      match result with
      | PollResult.ok statusValue =>
        let s1 : TCMState :=
          { s with rateLimitState :=
              updateRateLimitsFromHeaders s.rateLimitState none }
        match statusErr statusValue with
        | some e => toPollAction (completeConfirmation s1 signature (some e) false)
        | none =>
          if statusConfirmed statusValue then
            toPollAction (completeConfirmation s1 signature none true)
          else if isTransactionExpired s1 signature then
            toPollAction
              (completeConfirmation s1 signature (some "Transaction expired") false)
          else
            (s1, PollAction.reschedule s1.config.statusCheckInterval)
      | PollResult.rateLimitError retryAfterHeader =>
        let rl := handleRateLimitError s.rateLimitState retryAfterHeader
        ({ s with rateLimitState := rl }, PollAction.reschedule rl.retryAfter)
      | PollResult.otherError _ => (s, PollAction.halt)
    else
      (s, PollAction.reschedule s.rateLimitState.retryAfter)

/-- One tick of the `startBlockHeightTracking` interval (lines 165-178). -/
def updateBlockHeight (s : TCMState) (h : Int) : TCMState :=
  { s with lastKnownBlockHeight := h }

/-! ### The volume bot (`src/simple_volume_bot.js`) -/

/-- The trade direction passed as `action` to `_executeSingleTrade`. -/
inductive TradeAction where
  | buy
  | sell
deriving Repr, DecidableEq

/-- The `tokenType` dispatched on in `_executeSingleTrade`. -/
inductive TokenType where
  | pump
  | jupiter
deriving Repr, DecidableEq

/-- The record returned by `_checkTokenAccount` (lines 646-672): whether a
token account exists and its balance (0 when it does not). -/
structure TokenAccountInfo where
  acctExists : Bool
  balance : Int
deriving Repr, DecidableEq

/-- The environment's answer to one swap attempt (`testSwap` /
`executeTrade`, including the quote-build step): either it returns, or it
throws with a message. -/
inductive SwapResult where
  | ok
  | thrown (message : String)
deriving Repr, DecidableEq

/-- The external world a trade pass interacts with: wallets are indices;
`checkTokenAccount` answers the pre-sell balance probe and `swap` answers
the quote-build-submit-confirm pipeline for one wallet and action. -/
structure TradeEnv where
  checkTokenAccount : Nat → TokenAccountInfo
  swap : Nat → TradeAction → SwapResult

/-- `_executeSingleTrade(tokenAddress, tokenType, wallet, action)`
(lines 249-325).  Every thrown error is caught at the bottom and turned
into `false`; a missing wallet throws (caught, `false`); the Jupiter sell
path first checks the token account and returns `false` without attempting
any swap when the account is missing or its balance is zero; the pump path
has no balance check. -/
def executeSingleTrade (env : TradeEnv) (tokenType : TokenType)
    (wallet : Option Nat) (action : TradeAction) : Bool :=
  match wallet with
  | none => false
  | some w =>
    match tokenType, action with
    | TokenType.jupiter, TradeAction.buy =>
      match env.swap w TradeAction.buy with
      | SwapResult.ok => true
      | SwapResult.thrown _ => false
    | TokenType.jupiter, TradeAction.sell =>
      let accountInfo := env.checkTokenAccount w
      if !accountInfo.acctExists || accountInfo.balance == 0 then
        false
      else
        match env.swap w TradeAction.sell with
        | SwapResult.ok => true
        | SwapResult.thrown _ => false
    | TokenType.pump, a =>
      match env.swap w a with
      | SwapResult.ok => true
      | SwapResult.thrown _ => false

/-- The aggregate counters mutated by `_executeGroupTradeCycle`
(`this.stats`, lines 47-52 and 236-239). -/
structure SessionStats where
  successfulTrades : Nat
  totalTrades : Nat
deriving Repr, DecidableEq

/-- `results.filter(Boolean).length`. -/
def countTrue (l : List Bool) : Nat := (l.filter id).length

/-- `_executeGroupTradeCycle(walletGroup, tokenAddress, tokenType)`
(lines 207-246): the buy pass maps every wallet to its boolean result, then
the sell pass does the same (staggering delays do not affect the results),
then `successfulTrades += #true(buy) + #true(sell)` and
`totalTrades += walletGroup.length * 2`.  Returns the updated stats and
both result lists. -/
def executeGroupTradeCycle (env : TradeEnv) (tokenType : TokenType)
    (stats : SessionStats) (walletGroup : List (Option Nat)) :
    SessionStats × List Bool × List Bool :=
  let buyResults :=
    walletGroup.map (fun w => executeSingleTrade env tokenType w TradeAction.buy)
  let sellResults :=
    walletGroup.map (fun w => executeSingleTrade env tokenType w TradeAction.sell)
  ({ successfulTrades :=
      stats.successfulTrades + countTrue buyResults + countTrue sellResults
     totalTrades := stats.totalTrades + walletGroup.length * 2 },
   buyResults, sellResults)

/-- The lifecycle state of `SimpleVolumeBot` touched by `start`/`stop`:
the two flags, the tracked interval-timer ids (`this.intervals`), the
`activeConfirmationManagers` set, and `this.stats.endTime`. -/
structure BotState where
  isRunning : Bool
  isStopped : Bool
  intervals : List Nat
  activeConfirmationManagers : List Nat
  endTime : Int
deriving Repr, DecidableEq

/-- `stop()` (lines 372-399): clears every tracked interval timer and
empties the tracking set, clears the active-manager set, then sets
`isStopped = true` and `isRunning = false`.  The second component lists the
timer ids on which `clearInterval` was called. -/
def stop (s : BotState) : BotState × List Nat :=
  ({ s with
      intervals := []
      activeConfirmationManagers := []
      isStopped := true
      isRunning := false },
   s.intervals)

/-- The round loop of `start` (line 174):
`while (this.isRunning && Date.now() < this.stats.endTime)`.  Given the
clock value observed at each successive loop-condition check, counts how
many further rounds the loop executes. -/
def roundLoopRounds (s : BotState) (checkTimes : List Int) : Nat :=
  match checkTimes with
  | [] => 0
  | t :: rest =>
    if s.isRunning && decide (t < s.endTime) then 1 + roundLoopRounds s rest
    else 0

/-! ### Helper lemmas -/

theorem mapLookup_mapDelete_self {α : Type} (m : List (String × α))
    (k : String) : mapLookup (mapDelete m k) k = none := by
  induction m with
  | nil => rfl
  | cons p rest ih =>
    obtain ⟨k', v⟩ := p
    by_cases h : k' = k
    · simpa [mapDelete, h] using ih
    · simpa [mapDelete, mapLookup, h] using ih

theorem toPollAction_fst (p : TCMState × Option Outcome) :
    (toPollAction p).1 = p.1 := by
  obtain ⟨s, o⟩ := p
  cases o <;> rfl

theorem completeConfirmation_rateLimitState (s : TCMState) (sig : String)
    (e : Option String) (b : Bool) :
    (completeConfirmation s sig e b).1.rateLimitState = s.rateLimitState := by
  unfold completeConfirmation
  cases mapLookup s.pendingConfirmations sig with
  | none => rfl
  | some c => cases e <;> rfl

/-! ### Claims -/

/-- The manager state of claim C1's scenario: the tracked block height is
100 when "SIGX" is registered (at clock 1500), then the block-height
tracker advances to 251 = 100 + 151 with no status signal. -/
def c1State : TCMState :=
  updateBlockHeight
    (confirmTransaction (updateBlockHeight tcmInit 100) "SIGX" 1500).1 251

/-- Claim C1 (code bug): the spec says a pending confirmation whose start
height is exceeded by more than `maxBlockHeightAge = 150` blocks resolves
as failed with 'Transaction expired' at the next poll; in the code the
pending record never stores `startBlockHeight` (it is `undefined`), so
`isTransactionExpired` is `false` even 151 blocks past registration, and
the poll merely reschedules after 2000 ms, leaving the record pending. -/
theorem C1_expiry_never_fires :
    isTransactionExpired c1State "SIGX" = false ∧
    checkTransactionStatus c1State "SIGX" 5000 (PollResult.ok none) =
      (c1State, PollAction.reschedule 2000) ∧
    (mapLookup c1State.pendingConfirmations "SIGX").isSome = true :=
  ⟨rfl, rfl, rfl⟩

/-- Claim C2: `completeConfirmation` removes the pending record on the
first terminal resolution, delivers exactly one outcome, and any second
resolution attempt for the same signature is a silent no-op (the state is
unchanged and no outcome is delivered). -/
theorem C2_resolution_idempotent (s : TCMState) (sig : String)
    (e e' : Option String) (b b' : Bool)
    (h : (mapLookup s.pendingConfirmations sig).isSome = true) :
    mapLookup (completeConfirmation s sig e b).1.pendingConfirmations sig =
      none ∧
    (completeConfirmation s sig e b).2.isSome = true ∧
    completeConfirmation (completeConfirmation s sig e b).1 sig e' b' =
      ((completeConfirmation s sig e b).1, none) := by
  cases hl : mapLookup s.pendingConfirmations sig with
  | none => rw [hl] at h; simp at h
  | some c =>
    cases e <;> simp [completeConfirmation, hl, mapLookup_mapDelete_self]

/-- The registered-but-unresolved state used to witness claim C2. -/
def c2State : TCMState := (confirmTransaction tcmInit "SIG2" 100).1

/-- Witness for claim C2 at a concrete registered signature, resolving it a
first time successfully and then attempting a late failure resolution. -/
theorem C2_resolution_idempotent_witness :
    (mapLookup c2State.pendingConfirmations "SIG2").isSome = true ∧
    (mapLookup (completeConfirmation c2State "SIG2" none true).1.pendingConfirmations
        "SIG2" = none ∧
     (completeConfirmation c2State "SIG2" none true).2.isSome = true ∧
     completeConfirmation (completeConfirmation c2State "SIG2" none true).1
        "SIG2" (some "late error") false =
       ((completeConfirmation c2State "SIG2" none true).1, none)) :=
  ⟨rfl, C2_resolution_idempotent c2State "SIG2" none (some "late error")
    true false rfl⟩

/-- Claim C3: registration schedules the timeout timer with delay
`subscribeTimeoutMs` (45000 ms by default), and when that timer fires with
the record still pending, the confirmation is forcibly resolved as a
failure with the 'Confirmation timeout' error and removed. -/
theorem C3_timeout_backstop (s : TCMState) (sig : String) (now tfire : Int)
    (c : Confirmation)
    (hc : mapLookup s.pendingConfirmations sig = some c)
    (hdue : tfire - c.startTime ≥ s.config.subscribeTimeoutMs) :
    (confirmTransaction s sig now).2 = s.config.subscribeTimeoutMs ∧
    defaultTCMConfig.subscribeTimeoutMs = 45000 ∧
    handleConfirmationTimeout s sig tfire =
      ({ s with
          pendingConfirmations := mapDelete s.pendingConfirmations sig
          subscriptions := mapDelete s.subscriptions sig },
       some (Outcome.failure "Confirmation timeout")) := by
  refine ⟨rfl, rfl, ?_⟩
  simp [handleConfirmationTimeout, hc, hdue, completeConfirmation]

/-- The registered-but-unresolved state used to witness claim C3. -/
def c3State : TCMState := (confirmTransaction tcmInit "SIG3" 0).1

/-- Witness for claim C3: a signature registered at clock 0 whose timer
fires at clock 45000 resolves as 'Confirmation timeout'. -/
theorem C3_timeout_backstop_witness :
    mapLookup c3State.pendingConfirmations "SIG3" =
      some { signature := "SIG3", startTime := 0, startBlockHeight := none,
             attempts := 0, subscribed := false, statusChecked := false } ∧
    (45000 - (0 : Int) ≥ c3State.config.subscribeTimeoutMs) ∧
    ((confirmTransaction c3State "SIG3" 0).2 =
        c3State.config.subscribeTimeoutMs ∧
     defaultTCMConfig.subscribeTimeoutMs = 45000 ∧
     handleConfirmationTimeout c3State "SIG3" 45000 =
       ({ c3State with
           pendingConfirmations := mapDelete c3State.pendingConfirmations "SIG3"
           subscriptions := mapDelete c3State.subscriptions "SIG3" },
        some (Outcome.failure "Confirmation timeout"))) :=
  ⟨rfl, by decide,
   C3_timeout_backstop c3State "SIG3" 0 45000
     { signature := "SIG3", startTime := 0, startBlockHeight := none,
       attempts := 0, subscribed := false, statusChecked := false }
     rfl (by decide)⟩

/-- Claim C4: a poll that observes a ledger-reported execution error
completes the confirmation as a failure carrying that error (so it can
never resolve success); a poll that observes an error-free status with
`confirmationStatus` 'confirmed' or 'finalized' resolves success `true`;
and a websocket notification resolves failure on an error and success
`true` otherwise. -/
theorem C4_terminal_outcomes (s : TCMState) (sig : String) (now : Int)
    (v : SignatureStatusValue) (e : String)
    (hpend : (mapLookup s.pendingConfirmations sig).isSome = true)
    (hgate : canMakeRequest s.rateLimitState now = true) :
    (v.err = some e →
      (checkTransactionStatus s sig now (PollResult.ok (some v))).2 =
        PollAction.resolved (Outcome.failure e)) ∧
    (v.err = none →
      (v.confirmationStatus = some "confirmed" ∨
       v.confirmationStatus = some "finalized") →
      (checkTransactionStatus s sig now (PollResult.ok (some v))).2 =
        PollAction.resolved (Outcome.success true)) ∧
    (handleWebsocketConfirmation s sig (some e)).2 =
      some (Outcome.failure e) ∧
    (handleWebsocketConfirmation s sig none).2 =
      some (Outcome.success true) := by
  obtain ⟨c, hc⟩ := Option.isSome_iff_exists.mp hpend
  refine ⟨?_, ?_, ?_, ?_⟩
  · intro hverr
    simp [checkTransactionStatus, hc, hgate, statusErr, hverr,
      updateRateLimitsFromHeaders, completeConfirmation, toPollAction]
  · intro hverr hcs
    have hconf : statusConfirmed (some v) = true := by
      rcases hcs with h | h <;> simp [statusConfirmed, h]
    simp [checkTransactionStatus, hc, hgate, statusErr, hverr, hconf,
      updateRateLimitsFromHeaders, completeConfirmation, toPollAction]
  · simp [handleWebsocketConfirmation, completeConfirmation, hc]
  · simp [handleWebsocketConfirmation, completeConfirmation, hc]

/-- The registered-but-unresolved state used to witness claim C4. -/
def c4State : TCMState := (confirmTransaction tcmInit "SIG4" 0).1

/-- Witness for claim C4 at a concrete pending signature and a status value
carrying both an error and a confirmed status. -/
theorem C4_terminal_outcomes_witness :
    (mapLookup c4State.pendingConfirmations "SIG4").isSome = true ∧
    canMakeRequest c4State.rateLimitState 2000 = true ∧
    ((({ err := some "InstructionError", confirmationStatus := none } :
          SignatureStatusValue).err = some "InstructionError" →
      (checkTransactionStatus c4State "SIG4" 2000
          (PollResult.ok (some { err := some "InstructionError",
                                 confirmationStatus := none }))).2 =
        PollAction.resolved (Outcome.failure "InstructionError")) ∧
     (({ err := some "InstructionError", confirmationStatus := none } :
          SignatureStatusValue).err = none →
      (({ err := some "InstructionError", confirmationStatus := none } :
          SignatureStatusValue).confirmationStatus = some "confirmed" ∨
       ({ err := some "InstructionError", confirmationStatus := none } :
          SignatureStatusValue).confirmationStatus = some "finalized") →
      (checkTransactionStatus c4State "SIG4" 2000
          (PollResult.ok (some { err := some "InstructionError",
                                 confirmationStatus := none }))).2 =
        PollAction.resolved (Outcome.success true)) ∧
     (handleWebsocketConfirmation c4State "SIG4"
        (some "InstructionError")).2 =
       some (Outcome.failure "InstructionError") ∧
     (handleWebsocketConfirmation c4State "SIG4" none).2 =
       some (Outcome.success true)) :=
  ⟨rfl, rfl,
   C4_terminal_outcomes c4State "SIG4" 2000
     { err := some "InstructionError", confirmationStatus := none }
     "InstructionError" rfl rfl⟩

/-- Claim C5: a rate-limited (429) poll is never terminal: it sets the
forced retry-after delay to `max(provider retry-after, 2000 ms)`,
reschedules the poll after exactly that delay, and leaves the pending map
untouched. -/
theorem C5_rate_limit_not_terminal (s : TCMState) (sig : String)
    (now : Int) (hdr : Option Int)
    (hpend : (mapLookup s.pendingConfirmations sig).isSome = true)
    (hgate : canMakeRequest s.rateLimitState now = true) :
    checkTransactionStatus s sig now (PollResult.rateLimitError hdr) =
      ({ s with rateLimitState := handleRateLimitError s.rateLimitState hdr },
       PollAction.reschedule (max ((hdr.getD 2) * 1000) 2000)) ∧
    (handleRateLimitError s.rateLimitState hdr).retryAfter =
      max ((hdr.getD 2) * 1000) 2000 ∧
    ({ s with rateLimitState := handleRateLimitError s.rateLimitState hdr }
        : TCMState).pendingConfirmations = s.pendingConfirmations := by
  obtain ⟨c, hc⟩ := Option.isSome_iff_exists.mp hpend
  refine ⟨?_, rfl, rfl⟩
  simp [checkTransactionStatus, hc, hgate, handleRateLimitError]

/-- The registered-but-unresolved state used to witness claim C5. -/
def c5State : TCMState := (confirmTransaction tcmInit "SIG5" 0).1

/-- Witness for claim C5: a 429 with a 7-second retry-after header
reschedules the poll after 7000 ms and keeps the record pending. -/
theorem C5_rate_limit_not_terminal_witness :
    (mapLookup c5State.pendingConfirmations "SIG5").isSome = true ∧
    canMakeRequest c5State.rateLimitState 2000 = true ∧
    (checkTransactionStatus c5State "SIG5" 2000
        (PollResult.rateLimitError (some 7)) =
      ({ c5State with
          rateLimitState := handleRateLimitError c5State.rateLimitState (some 7) },
       PollAction.reschedule (max (((some 7 : Option Int).getD 2) * 1000) 2000)) ∧
     (handleRateLimitError c5State.rateLimitState (some 7)).retryAfter =
       max (((some 7 : Option Int).getD 2) * 1000) 2000 ∧
     ({ c5State with
         rateLimitState := handleRateLimitError c5State.rateLimitState (some 7) }
        : TCMState).pendingConfirmations = c5State.pendingConfirmations) :=
  ⟨rfl, rfl, C5_rate_limit_not_terminal c5State "SIG5" 2000 (some 7) rfl rfl⟩

/-- The state of claim C6's counterexample: "SIG6" is pending and the
rate-limit state carries a large forced retry-after (500000 ms, as set by
a recent 429) with the default budgets and `nextReset = 1000`. -/
def c6State : TCMState :=
  { (confirmTransaction tcmInit "SIG6" 0).1 with
    rateLimitState :=
      { methodRemaining := 10, rpsRemaining := 100, nextReset := 1000,
        retryAfter := 500000 } }

/-- Counterexample to claim C6: at clock 2000 — far before the 500000 ms
forced retry-after delay could have elapsed — `canMakeRequest` still
returns `true` (the gate tests `now > nextReset`, never `retryAfter`), and
a poll that goes through and gets a null status leaves the rate-limit
state completely unchanged: nothing decrements any budget after a
successful poll (`updateRateLimitsFromHeaders` is invoked with no
argument). -/
theorem C6_counterexample :
    c6State.rateLimitState.retryAfter = 500000 ∧
    canMakeRequest c6State.rateLimitState 2000 = true ∧
    checkTransactionStatus c6State "SIG6" 2000 (PollResult.ok none) =
      (c6State, PollAction.reschedule 2000) ∧
    (checkTransactionStatus c6State "SIG6" 2000
        (PollResult.ok none)).1.rateLimitState.methodRemaining =
      c6State.rateLimitState.methodRemaining :=
  ⟨rfl, rfl, rfl, rfl⟩

theorem checkTransactionStatus_ok_none_rl (s : TCMState) (sig : String)
    (now : Int) :
    (checkTransactionStatus s sig now (PollResult.ok none)).1.rateLimitState =
      s.rateLimitState := by
  unfold checkTransactionStatus
  cases hl : mapLookup s.pendingConfirmations sig with
  | none => rfl
  | some c =>
    by_cases hg : canMakeRequest s.rateLimitState now
    · simp only [hg, if_true, statusErr, statusConfirmed, Bool.false_eq_true,
        if_false]
      split
      · rw [toPollAction_fst, completeConfirmation_rateLimitState]; rfl
      · rfl
    · simp [hg]

/-- Claim C6 as amended: the gate admits a poll exactly when both budgets
are positive and the clock is past `nextReset` (the forced retry-after is
honored only as a rescheduling delay, not by the gate); a successful poll
leaves the rate-limit state unchanged (the header update runs with no
headers, so no budget is decremented); a rate-limit error sets the forced
retry-after to `max(provider retry-after, 2000 ms)`. -/
theorem C6_rate_limit_state_amended (rl : RateLimitState) (now : Int)
    (s : TCMState) (sig : String) (hdr : Option Int)
    (hpend : (mapLookup s.pendingConfirmations sig).isSome = true)
    (hgate : canMakeRequest s.rateLimitState now = true) :
    (canMakeRequest rl now = true ↔
      (0 < rl.methodRemaining ∧ 0 < rl.rpsRemaining ∧ rl.nextReset < now)) ∧
    (checkTransactionStatus s sig now (PollResult.ok none)).1.rateLimitState =
      s.rateLimitState ∧
    (checkTransactionStatus s sig now
        (PollResult.rateLimitError hdr)).1.rateLimitState.retryAfter =
      max ((hdr.getD 2) * 1000) 2000 := by
  obtain ⟨c, hc⟩ := Option.isSome_iff_exists.mp hpend
  refine ⟨?_, checkTransactionStatus_ok_none_rl s sig now, ?_⟩
  · simp [canMakeRequest, and_assoc]
  · simp [checkTransactionStatus, hc, hgate, handleRateLimitError]

/-- The pending state used to witness claim C6's amended theorem. -/
def c6WitnessState : TCMState := (confirmTransaction tcmInit "SIG6W" 0).1

/-- Witness for the amended claim C6 at a concrete pending signature,
gate state and retry-after header. -/
theorem C6_rate_limit_state_amended_witness :
    (mapLookup c6WitnessState.pendingConfirmations "SIG6W").isSome = true ∧
    canMakeRequest c6WitnessState.rateLimitState 2000 = true ∧
    ((canMakeRequest (initRateLimitState 0) 2000 = true ↔
      (0 < (initRateLimitState 0).methodRemaining ∧
       0 < (initRateLimitState 0).rpsRemaining ∧
       (initRateLimitState 0).nextReset < 2000)) ∧
     (checkTransactionStatus c6WitnessState "SIG6W" 2000
        (PollResult.ok none)).1.rateLimitState =
       c6WitnessState.rateLimitState ∧
     (checkTransactionStatus c6WitnessState "SIG6W" 2000
        (PollResult.rateLimitError (some 7))).1.rateLimitState.retryAfter =
       max (((some 7 : Option Int).getD 2) * 1000) 2000) :=
  ⟨rfl, rfl,
   C6_rate_limit_state_amended (initRateLimitState 0) 2000 c6WitnessState
     "SIG6W" (some 7) rfl rfl⟩

/-- The trade environment of claim C7's scenario: wallet index 2's buy
throws during the quote build, every other swap succeeds, and every wallet
holds tokens. -/
def c7Env : TradeEnv :=
  { checkTokenAccount := fun _ => { acctExists := true, balance := 100 }
    swap := fun w a =>
      match w, a with
      | 2, TradeAction.buy => SwapResult.thrown "quote build failed"
      | _, _ => SwapResult.ok }

/-- The five-wallet group of claim C7's scenario. -/
def c7Group : List (Option Nat) := [some 0, some 1, some 2, some 3, some 4]

/-- Claim C7: one group trade cycle adds exactly the number of successful
buy and sell passes to `successfulTrades` and exactly `N * 2` to
`totalTrades` for any environment whatsoever, and each pass's result is
the independent per-wallet boolean, so one wallet's failure aborts neither
the other wallets nor the sell pass; in the five-wallet scenario where
wallet #3's quote build fails, the buy results are
`[true, true, false, true, true]`, all five sells still run, and the
stats become 9 successes out of 10 passes. -/
theorem C7_group_cycle_aggregation (env : TradeEnv) (tt : TokenType)
    (stats : SessionStats) (group : List (Option Nat)) :
    (executeGroupTradeCycle env tt stats group).1.successfulTrades =
      stats.successfulTrades +
        countTrue (group.map fun w =>
          executeSingleTrade env tt w TradeAction.buy) +
        countTrue (group.map fun w =>
          executeSingleTrade env tt w TradeAction.sell) ∧
    (executeGroupTradeCycle env tt stats group).1.totalTrades =
      stats.totalTrades + group.length * 2 ∧
    (executeGroupTradeCycle env tt stats group).2.1 =
      group.map (fun w => executeSingleTrade env tt w TradeAction.buy) ∧
    (executeGroupTradeCycle env tt stats group).2.2 =
      group.map (fun w => executeSingleTrade env tt w TradeAction.sell) ∧
    (executeGroupTradeCycle c7Env TokenType.jupiter ⟨0, 0⟩ c7Group).2.1 =
      [true, true, false, true, true] ∧
    (executeGroupTradeCycle c7Env TokenType.jupiter ⟨0, 0⟩ c7Group).2.2 =
      [true, true, true, true, true] ∧
    (executeGroupTradeCycle c7Env TokenType.jupiter ⟨0, 0⟩ c7Group).1 =
      ({ successfulTrades := 9, totalTrades := 10 } : SessionStats) :=
  ⟨rfl, rfl, rfl, rfl, by decide, by decide, by decide⟩

/-- The trade environment of claim C8's scenario: no wallet has a token
account, while any swap that were attempted would succeed. -/
def c8Env : TradeEnv :=
  { checkTokenAccount := fun _ => { acctExists := false, balance := 0 }
    swap := fun _ _ => SwapResult.ok }

/-- Counterexample to claim C8: a Jupiter sell for a wallet with no token
account returns `false` even though every swap in the environment would
succeed, and the one-wallet group cycle records
`successfulTrades = 1` (the buy only) out of `totalTrades = 2` — the
skipped sell is counted exactly like a failed attempt in the aggregate
statistics, not as a non-failure no-op. -/
theorem C8_counterexample :
    executeSingleTrade c8Env TokenType.jupiter (some 0) TradeAction.sell =
      false ∧
    (executeGroupTradeCycle c8Env TokenType.jupiter ⟨0, 0⟩ [some 0]).1 =
      ({ successfulTrades := 1, totalTrades := 2 } : SessionStats) :=
  ⟨rfl, by decide⟩

/-- Claim C8 as amended: before a Jupiter sell the code checks the token
account, and when the account does not exist or its balance is zero the
sell is skipped — no swap is attempted (the result is `false` regardless
of how every swap would behave) — but the skip is recorded as `false`,
so it is counted in `totalTrades` and excluded from `successfulTrades`
exactly like a failed attempt. -/
theorem C8_sell_skip_amended (env : TradeEnv) (w : Nat)
    (stats : SessionStats)
    (h : (env.checkTokenAccount w).acctExists = false ∨
         (env.checkTokenAccount w).balance = 0) :
    executeSingleTrade env TokenType.jupiter (some w) TradeAction.sell =
      false ∧
    (executeGroupTradeCycle env TokenType.jupiter stats [some w]).1.totalTrades =
      stats.totalTrades + 2 ∧
    (executeGroupTradeCycle env TokenType.jupiter stats [some w]).1.successfulTrades =
      stats.successfulTrades +
        countTrue [executeSingleTrade env TokenType.jupiter (some w)
          TradeAction.buy] := by
  have hskip : executeSingleTrade env TokenType.jupiter (some w)
      TradeAction.sell = false := by
    unfold executeSingleTrade
    rcases h with h | h <;> simp [h]
  refine ⟨hskip, rfl, ?_⟩
  simp [executeGroupTradeCycle, hskip, countTrue]

/-- Witness for the amended claim C8 at the concrete no-token-account
environment and a one-wallet group. -/
theorem C8_sell_skip_amended_witness :
    ((c8Env.checkTokenAccount 0).acctExists = false ∨
     (c8Env.checkTokenAccount 0).balance = 0) ∧
    (executeSingleTrade c8Env TokenType.jupiter (some 0) TradeAction.sell =
       false ∧
     (executeGroupTradeCycle c8Env TokenType.jupiter ⟨3, 4⟩ [some 0]).1.totalTrades =
       (⟨3, 4⟩ : SessionStats).totalTrades + 2 ∧
     (executeGroupTradeCycle c8Env TokenType.jupiter ⟨3, 4⟩ [some 0]).1.successfulTrades =
       (⟨3, 4⟩ : SessionStats).successfulTrades +
         countTrue [executeSingleTrade c8Env TokenType.jupiter (some 0)
           TradeAction.buy]) :=
  ⟨Or.inl rfl, C8_sell_skip_amended c8Env 0 ⟨3, 4⟩ (Or.inl rfl)⟩

/-- Claim C9: `stop()` can run from any state: it clears the running flag,
sets the stopped flag, empties the interval-tracking set after calling
`clearInterval` on every tracked timer, is idempotent (a second call
changes nothing and has no timers left to clear), and the round loop —
whose condition observes `isRunning` — executes no further round on the
stopped state, whatever clock values later checks observe. -/
theorem C9_stop_idempotent_halts (s : BotState) (times : List Int) :
    (stop s).1.isRunning = false ∧
    (stop s).1.isStopped = true ∧
    (stop s).1.intervals = [] ∧
    (stop s).2 = s.intervals ∧
    stop (stop s).1 = ((stop s).1, []) ∧
    roundLoopRounds (stop s).1 times = 0 := by
  refine ⟨rfl, rfl, rfl, rfl, rfl, ?_⟩
  cases times with
  | nil => rfl
  | cons t rest => simp [roundLoopRounds, stop]

/-- Claim C10: a poll rejection whose message does not contain '429'
schedules nothing further — the step returns `halt` with the state (and
hence the pending record) untouched — so that confirmation can afterwards
still resolve through the websocket notification or the timeout backstop,
while no poll (and with it the expiry check) will run again. -/
theorem C10_non429_halts_polling (s : TCMState) (sig : String)
    (now tfire : Int) (msg : String) (c : Confirmation)
    (hc : mapLookup s.pendingConfirmations sig = some c)
    (hgate : canMakeRequest s.rateLimitState now = true)
    (hdue : tfire - c.startTime ≥ s.config.subscribeTimeoutMs) :
    checkTransactionStatus s sig now (PollResult.otherError msg) =
      (s, PollAction.halt) ∧
    (handleWebsocketConfirmation s sig none).2 =
      some (Outcome.success true) ∧
    (handleConfirmationTimeout s sig tfire).2 =
      some (Outcome.failure "Confirmation timeout") := by
  refine ⟨?_, ?_, ?_⟩
  · simp [checkTransactionStatus, hc, hgate]
  · simp [handleWebsocketConfirmation, completeConfirmation, hc]
  · simp [handleConfirmationTimeout, hc, hdue, completeConfirmation]

/-- The registered-but-unresolved state used to witness claim C10. -/
def c10State : TCMState := (confirmTransaction tcmInit "SIGB" 0).1

/-- Witness for claim C10: a non-429 poll error for a concrete pending
signature halts polling, and the websocket or the 45000 ms timeout can
still resolve it. -/
theorem C10_non429_halts_polling_witness :
    mapLookup c10State.pendingConfirmations "SIGB" =
      some { signature := "SIGB", startTime := 0, startBlockHeight := none,
             attempts := 0, subscribed := false, statusChecked := false } ∧
    canMakeRequest c10State.rateLimitState 2000 = true ∧
    ((45000 : Int) - (0 : Int) ≥ c10State.config.subscribeTimeoutMs) ∧
    (checkTransactionStatus c10State "SIGB" 2000
        (PollResult.otherError "socket hang up") =
      (c10State, PollAction.halt) ∧
     (handleWebsocketConfirmation c10State "SIGB" none).2 =
       some (Outcome.success true) ∧
     (handleConfirmationTimeout c10State "SIGB" 45000).2 =
       some (Outcome.failure "Confirmation timeout")) :=
  ⟨rfl, rfl, by decide,
   C10_non429_halts_polling c10State "SIGB" 2000 45000 "socket hang up"
     { signature := "SIGB", startTime := 0, startBlockHeight := none,
       attempts := 0, subscribed := false, statusChecked := false }
     rfl rfl (by decide)⟩
